import Mathlib

/-!
Verification of the Public Transport Victoria connector
(`custom_components/public_transport_victoria`).

This file is a shallow embedding, in Lean 4, of the data-processing core of
the integration: the JSON value model, the wire-format timestamp parser
(`datetime.strptime` with format `%Y-%m-%dT%H:%M:%SZ` followed by the
`datetime` constructor validation), local-zone conversion (`astimezone` with
the zone modelled as a fixed UTC offset in whole minutes), the URL signer
(`build_URL`, HMAC-SHA1), the departure pipeline (`Connector.async_update`),
the disruption pipeline (`Connector.async_update_disruptions`), and the
throttling / state behaviour of the `Connector` class.

Machine integers are modelled as `Nat` with explicit `% 2^32` where SHA-1
needs 32-bit wraparound.  Fallible Python code is modelled with `Option`
(a dropped record / caught exception) or `Except` (a propagating exception).
-/

namespace PTV

/-! ## JSON values

Python objects obtained from `response.json()`: `None`, booleans, integers,
strings, lists and dicts.  Dicts are modelled as association lists in
insertion order (Python dicts preserve insertion order, and `dict.values()`
iterates in that order). -/

inductive J where
  | null : J
  | b : Bool → J
  | i : Int → J
  | s : String → J
  | arr : List J → J
  | obj : List (String × J) → J

/-- A single-quote character, as a string (used by Python `repr` of strings). -/
def squote : String := String.mk [Char.ofNat 39]

mutual

/-- Python `repr` of a JSON-like value (string escaping inside `repr` is not
modelled; the values compared in this development are scalars). -/
def pyRepr : J → String
  | .null => "None"
  | .b true => "True"
  | .b false => "False"
  | .i n => toString n
  | .s v => squote ++ v ++ squote
  | .arr xs => "[" ++ pyReprList xs ++ "]"
  | .obj kvs => "\x7b" ++ pyReprObj kvs ++ "\x7d"

def pyReprList : List J → String
  | [] => ""
  | [x] => pyRepr x
  | x :: y :: xs => pyRepr x ++ ", " ++ pyReprList (y :: xs)

def pyReprObj : List (String × J) → String
  | [] => ""
  | [kv] => squote ++ kv.1 ++ squote ++ ": " ++ pyRepr kv.2
  | kv :: kv2 :: kvs =>
      squote ++ kv.1 ++ squote ++ ": " ++ pyRepr kv.2 ++ ", " ++ pyReprObj (kv2 :: kvs)

end

/-- Python `str()` of a JSON-like value: identity on strings, `repr`-like
otherwise (`str(None) = "None"`, `str(5) = "5"`, `str(True) = "True"`). -/
def pyStr : J → String
  | .s v => v
  | x => pyRepr x

/-- Python truthiness of a JSON-like value (`bool(x)`): `None`, `False`, `0`,
`""`, `[]` and `\x7b\x7d` are falsy. -/
def jTruthy : J → Bool
  | .null => false
  | .b v => v
  | .i n => n != 0
  | .s v => v != ""
  | .arr xs => !xs.isEmpty
  | .obj kvs => !kvs.isEmpty

/-- Python `a or b`. -/
def jOr (a b : J) : J := if jTruthy a then a else b

/-- Python `d.get(k)` on a dict: the stored value, else `None`. -/
def getJ (kvs : List (String × J)) (k : String) : J :=
  match kvs.lookup k with
  | some v => v
  | none => J.null

/-! ## Timestamps

`datetime.strptime(s, "%Y-%m-%dT%H:%M:%SZ")`.  CPython's `_strptime`
matches `%Y` against exactly four digits, and each of `%m %d %H %M %S`
against one or two digits (with the numeric range of the directive); the
whole string must be consumed.  The resulting field values are then
validated by the `datetime` constructor (day against month length with leap
years, seconds 0..59, year at least 1). -/

structure DateTime where
  year : Nat
  month : Nat
  day : Nat
  hour : Nat
  minute : Nat
  second : Nat
deriving DecidableEq, Repr

def digVal (c : Char) : Nat := c.toNat - 48

/-- Read exactly four digits (the `%Y` directive). -/
def read4 : List Char → Option (Nat × List Char)
  | a :: b :: c :: d :: rest =>
      if a.isDigit && b.isDigit && c.isDigit && d.isDigit then
        some (((digVal a * 10 + digVal b) * 10 + digVal c) * 10 + digVal d, rest)
      else none
  | _ => none

/-- Read one or two digits, greedily (the two-digit numeric directives of
`_strptime`; the following separator is checked by the caller, which matches
the regex alternation because the separators are never digits). -/
def read12 : List Char → Option (Nat × List Char)
  | [] => none
  | [a] => if a.isDigit then some (digVal a, []) else none
  | a :: b :: rest =>
      if a.isDigit then
        if b.isDigit then some (digVal a * 10 + digVal b, rest)
        else some (digVal a, b :: rest)
      else none

def expectChar (c : Char) : List Char → Option (List Char)
  | x :: rest => if x = c then some rest else none
  | [] => none

def isLeap (y : Nat) : Bool := (y % 4 == 0 && y % 100 != 0) || y % 400 == 0

def daysInMonth (y m : Nat) : Nat :=
  if m = 2 then (if isLeap y then 29 else 28)
  else if m = 4 || m = 6 || m = 9 || m = 11 then 30
  else 31

/-- The scanning pass of `strptime` on `"%Y-%m-%dT%H:%M:%SZ"`: literal
separators and greedy numeric fields. -/
def scanWire (cs : List Char) : Option (Nat × Nat × Nat × Nat × Nat × Nat × List Char) := do
  let (y, r1) ← read4 cs
  let r2 ← expectChar '-' r1
  let (mo, r3) ← read12 r2
  let r4 ← expectChar '-' r3
  let (d, r5) ← read12 r4
  let r6 ← expectChar 'T' r5
  let (h, r7) ← read12 r6
  let r8 ← expectChar ':' r7
  let (mi, r9) ← read12 r8
  let r10 ← expectChar ':' r9
  let (sec, r11) ← read12 r10
  let r12 ← expectChar 'Z' r11
  some (y, mo, d, h, mi, sec, r12)

/-- The directive numeric ranges of `_strptime`, the full-match requirement,
and the `datetime` constructor validation. -/
def validateWire : Nat × Nat × Nat × Nat × Nat × Nat × List Char → Option DateTime
  | (y, mo, d, h, mi, sec, rest) =>
    if !rest.isEmpty then none
    else if mo < 1 || 12 < mo then none
    else if d < 1 || 31 < d then none
    else if 23 < h then none
    else if 59 < mi then none
    else if 61 < sec then none
    else if y < 1 then none
    else if 59 < sec then none
    else if daysInMonth y mo < d then none
    else some ⟨y, mo, d, h, mi, sec⟩

/-- `datetime.strptime(s, "%Y-%m-%dT%H:%M:%SZ")` followed by the `datetime`
constructor checks; `none` models raising `ValueError`. -/
def strptimeWire (str : String) : Option DateTime :=
  (scanWire str.data).bind validateWire

/-- Days from 0001-01-01 to `y`-01-01 in the proleptic Gregorian calendar. -/
def daysBeforeYear (y : Nat) : Nat :=
  let n := y - 1
  n * 365 + n / 4 + n / 400 - n / 100

/-- Days from `y`-01-01 to `y`-`m`-01. -/
def daysBeforeMonth (y m : Nat) : Nat :=
  (List.range (m - 1)).foldl (fun acc i => acc + daysInMonth y (i + 1)) 0

/-- Days from 0001-01-01 to the date of `dt`. -/
def toDays (dt : DateTime) : Nat :=
  daysBeforeYear dt.year + daysBeforeMonth dt.year dt.month + (dt.day - 1)

/-- Minutes from 0001-01-01T00:00 to the minute-truncated instant of `dt`:
the comparison key of the per-minute deduplication (`strftime
"%Y-%m-%dT%H:%M"` strings are equal exactly when these values are equal, for
valid datetimes). -/
def toEpochMin (dt : DateTime) : Nat :=
  (toDays dt * 24 + dt.hour) * 60 + dt.minute

/-- Seconds from 0001-01-01T00:00:00: the chronological comparison key of a
valid `DateTime` (Python datetime comparison). -/
def toEpochSec (dt : DateTime) : Nat := toEpochMin dt * 60 + dt.second

/-- Proleptic-Gregorian civil date from a day count (days since
0001-01-01). -/
def civilFromDays (n : Nat) : Nat × Nat × Nat :=
  let z := n + 306
  let era := z / 146097
  let doe := z % 146097
  let yoe := (doe - doe / 1460 + doe / 36524 - doe / 146096) / 365
  let y := yoe + era * 400
  let doy := doe - (365 * yoe + yoe / 4 - yoe / 100)
  let mp := (5 * doy + 2) / 153
  let d := doy - (153 * mp + 2) / 5 + 1
  let m := if mp < 10 then mp + 3 else mp - 9
  (if m ≤ 2 then y + 1 else y, m, d)

def fromEpochMin (n : Nat) : DateTime :=
  let c := civilFromDays (n / 1440)
  ⟨c.1, c.2.1, c.2.2, (n / 60) % 24, n % 60, 0⟩

/-- `d.replace(tzinfo=utc).astimezone(local_tz)` with the local zone modelled
as a fixed offset of `off` minutes: shifts the wall-clock fields by `off`
(seconds unchanged).  `none` models the `OverflowError` raised when the
result leaves the supported `datetime` range (year 1..9999). -/
def astimezoneOpt (off : Int) (dt : DateTime) : Option DateTime :=
  let t : Int := (toEpochMin dt : Int) + off
  if t < 0 then none
  else
    let base := fromEpochMin t.toNat
    let adj : DateTime := { base with second := dt.second }
    if 9999 < adj.year then none else some adj

def pad2 (n : Nat) : String := if n < 10 then "0" ++ toString n else toString n

def pad4 (n : Nat) : String :=
  if n < 10 then "000" ++ toString n
  else if n < 100 then "00" ++ toString n
  else if n < 1000 then "0" ++ toString n
  else toString n

/-- The `+HH:MM` / `-HH:MM` suffix `isoformat()` prints for a fixed-offset
zone of `off` minutes. -/
def offsetSuffix (off : Int) : String :=
  (if off < 0 then "-" else "+") ++ pad2 (off.natAbs / 60) ++ ":" ++ pad2 (off.natAbs % 60)

/-- `d.isoformat()` for a zone-aware datetime (microseconds are zero here,
so they are omitted). -/
def isoformat (dt : DateTime) (off : Int) : String :=
  pad4 dt.year ++ "-" ++ pad2 dt.month ++ "-" ++ pad2 dt.day ++ "T" ++
    pad2 dt.hour ++ ":" ++ pad2 dt.minute ++ ":" ++ pad2 dt.second ++ offsetSuffix off

/-- `d.strftime("%Y-%m-%d %I:%M %p")` (glibc prints `%Y` unpadded). -/
def strftimeHuman (dt : DateTime) : String :=
  toString dt.year ++ "-" ++ pad2 dt.month ++ "-" ++ pad2 dt.day ++ " " ++
    pad2 (if dt.hour % 12 = 0 then 12 else dt.hour % 12) ++ ":" ++ pad2 dt.minute ++ " " ++
    (if dt.hour < 12 then "AM" else "PM")

/-- `d.strftime("%I:%M %p")`. -/
def strftime12h (dt : DateTime) : String :=
  pad2 (if dt.hour % 12 = 0 then 12 else dt.hour % 12) ++ ":" ++ pad2 dt.minute ++ " " ++
    (if dt.hour < 12 then "AM" else "PM")

/-! ## HMAC-SHA1 and the URL signer (`build_URL`)

SHA-1 over byte lists (`List Nat`, each byte < 256); 32-bit words are `Nat`
reduced modulo `2 ^ 32`. -/

def u32 (n : Nat) : Nat := n % 4294967296

/-- Rotate a 32-bit word left by `k` bits. -/
def rotl (k n : Nat) : Nat := u32 (n * 2 ^ k + n / 2 ^ (32 - k))

def bytesBE4 (n : Nat) : List Nat :=
  [n / 16777216 % 256, n / 65536 % 256, n / 256 % 256, n % 256]

def bytesBE8 (n : Nat) : List Nat :=
  bytesBE4 (n / 4294967296) ++ bytesBE4 n

/-- SHA-1 padding: `0x80`, zeros to 56 mod 64, then the bit length as a
big-endian 64-bit integer. -/
def sha1Pad (msg : List Nat) : List Nat :=
  let zeros := (64 - ((msg.length + 9) % 64)) % 64
  msg ++ [128] ++ List.replicate zeros 0 ++ bytesBE8 (msg.length * 8)

/-- Split into 64-byte blocks; the fuel (an upper bound on the number of
blocks, here the length itself) makes the recursion structural. -/
def chunks64Aux : Nat → List Nat → List (List Nat)
  | 0, _ => []
  | _, [] => []
  | fuel + 1, l@(_ :: _) => l.take 64 :: chunks64Aux fuel (l.drop 64)

def chunks64 (l : List Nat) : List (List Nat) := chunks64Aux l.length l

/-- Big-endian 32-bit words of a block. -/
def wordsOf : List Nat → List Nat
  | b0 :: b1 :: b2 :: b3 :: rest =>
      (((b0 * 256 + b1) * 256 + b2) * 256 + b3) :: wordsOf rest
  | _ => []

/-- Extend the 16 block words to the 80-word message schedule (`fuel` more
words are appended). -/
def sha1Sched (ws : List Nat) : Nat → List Nat
  | 0 => ws
  | fuel + 1 =>
    let n := ws.length
    let w := rotl 1 (ws.getD (n - 3) 0 ^^^ ws.getD (n - 8) 0 ^^^
                     ws.getD (n - 14) 0 ^^^ ws.getD (n - 16) 0)
    sha1Sched (ws ++ [w]) fuel

def sha1F (t b c d : Nat) : Nat :=
  if t < 20 then (b &&& c) ||| ((b ^^^ 4294967295) &&& d)
  else if t < 40 then b ^^^ c ^^^ d
  else if t < 60 then (b &&& c) ||| (b &&& d) ||| (c &&& d)
  else b ^^^ c ^^^ d

def sha1K (t : Nat) : Nat :=
  if t < 20 then 1518500249
  else if t < 40 then 1859775393
  else if t < 60 then 2400959708
  else 3395469782

def sha1Compress (h : Nat × Nat × Nat × Nat × Nat) (block : List Nat) :
    Nat × Nat × Nat × Nat × Nat :=
  let ws := sha1Sched (wordsOf block) 64
  let f := (List.range 80).foldl
    (fun st t =>
      match st with
      | (a, b, c, d, e) =>
        (u32 (rotl 5 a + sha1F t b c d + e + sha1K t + ws.getD t 0),
         a, rotl 30 b, c, d))
    h
  (u32 (h.1 + f.1), u32 (h.2.1 + f.2.1), u32 (h.2.2.1 + f.2.2.1),
   u32 (h.2.2.2.1 + f.2.2.2.1), u32 (h.2.2.2.2 + f.2.2.2.2))

/-- SHA-1 digest (20 bytes) of a byte list. -/
def sha1 (msg : List Nat) : List Nat :=
  let h := (chunks64 (sha1Pad msg)).foldl sha1Compress
    (1732584193, 4023233417, 2562383102, 271733878, 3285377520)
  bytesBE4 h.1 ++ bytesBE4 h.2.1 ++ bytesBE4 h.2.2.1 ++
    bytesBE4 h.2.2.2.1 ++ bytesBE4 h.2.2.2.2

/-- `hmac.new(key, msg, sha1).digest()` (RFC 2104, block size 64). -/
def hmacSha1 (key msg : List Nat) : List Nat :=
  let k0 := if 64 < key.length then sha1 key else key
  let k64 := k0 ++ List.replicate (64 - k0.length) 0
  sha1 ((k64.map (fun b => b ^^^ 92)) ++ sha1 ((k64.map (fun b => b ^^^ 54)) ++ msg))

def hexChar (n : Nat) : Char :=
  if n = 0 then '0' else if n = 1 then '1'
  else if n = 2 then '2' else if n = 3 then '3'
  else if n = 4 then '4' else if n = 5 then '5'
  else if n = 6 then '6' else if n = 7 then '7'
  else if n = 8 then '8' else if n = 9 then '9'
  else if n = 10 then 'a' else if n = 11 then 'b'
  else if n = 12 then 'c' else if n = 13 then 'd'
  else if n = 14 then 'e' else 'f'

/-- `.hexdigest()`: lowercase hex rendering of a byte list. -/
def hexdigest (bs : List Nat) : String :=
  String.mk (bs.map (fun b => [hexChar (b / 16), hexChar (b % 16)])).flatten

/-- UTF-8 encoding of one unicode scalar value. -/
def utf8Char (c : Char) : List Nat :=
  let n := c.toNat
  if n < 128 then [n]
  else if n < 2048 then [192 + n / 64, 128 + n % 64]
  else if n < 65536 then [224 + n / 4096, 128 + n / 64 % 64, 128 + n % 64]
  else [240 + n / 262144, 128 + n / 4096 % 64, 128 + n / 64 % 64, 128 + n % 64]

/-- `str.encode("utf-8")`. -/
def utf8Bytes (s : String) : List Nat := (s.data.map utf8Char).flatten

def BASE_URL : String := "https://timetableapi.ptv.vic.gov.au"

/-- `build_URL(id, api_key, request)` from
`PublicTransportVictoria/public_transport_victoria.py`. -/
def build_URL (id api_key request : String) : String :=
  let request := request ++ (if request.data.contains '?' then "&" else "?")
  let raw := request ++ "devid=" ++ id
  let signature := hexdigest (hmacSha1 (utf8Bytes api_key) (utf8Bytes raw))
  BASE_URL ++ raw ++ "&signature=" ++ signature

/-! ## Departures (`Connector.async_update`) -/

/-- A raw departure record; only the two timestamp fields are read by the
pipeline (the whole record is carried along unchanged). -/
structure RawDeparture where
  estimated_departure_utc : J
  scheduled_departure_utc : J

/-- A processed departure: the raw record plus the attached `_dep_utc`
(parsed UTC instant) and `departure` (local 12-hour display string). -/
structure Departure where
  raw : RawDeparture
  dep_utc : DateTime
  departure : String

/-- `convert_utc_to_local(utc, hass)`: parse the wire timestamp, shift to the
local zone, render `"%I:%M %p"`.  `none` models an uncaught exception
(`ValueError` from `strptime` or `OverflowError` from `astimezone`). -/
def convert_utc_to_local (off : Int) (utc : String) : Option String :=
  (strptimeWire utc).bind fun dt => (astimezoneOpt off dt).map strftime12h

/-- One iteration of the `async_update` loop building `departures_raw`:
`utc_str = r["estimated_departure_utc"] or r["scheduled_departure_utc"]`,
`continue` on a falsy `utc_str` (`.ok none`), `continue` when `strptime`
rejects the timestamp (the `try`/`except` also swallows the `TypeError` of a
truthy non-string), otherwise attach `_dep_utc` and `departure`.  The call
`convert_utc_to_local` is outside any `try`: if `astimezone` overflows
there, the exception propagates and aborts the whole refresh (`.error`). -/
def parse_departure (off : Int) (r : RawDeparture) : Except Unit (Option Departure) :=
  match jOr r.estimated_departure_utc r.scheduled_departure_utc with
  | .s str =>
    if str = "" then .ok none
    else
      match strptimeWire str with
      | none => .ok none
      | some dt =>
        match astimezoneOpt off dt with
        | none => .error ()
        | some adt => .ok (some { raw := r, dep_utc := dt, departure := strftime12h adt })
  | _ => .ok none

/-- The whole `for r in response["departures"]` loop: dropped records
(`.ok none`) are skipped and the loop continues; a propagating exception
(`.error`) aborts it. -/
def build_departures_raw (off : Int) : List RawDeparture → Except Unit (List Departure)
  | [] => .ok []
  | r :: rs =>
    match parse_departure off r with
    | .error e => .error e
    | .ok none => build_departures_raw off rs
    | .ok (some d) =>
      match build_departures_raw off rs with
      | .error e => .error e
      | .ok ds => .ok (d :: ds)

/-- `[d for d in departures_raw if d["_dep_utc"] > now_utc]`; `now` is the
epoch-second key of the fetch instant `now_utc`. -/
def futureOnly (now : Nat) (ds : List Departure) : List Departure :=
  ds.filter (fun d => now < toEpochSec d.dep_utc)

/-- The `seen_keys` deduplication loop: keep a departure only when its
minute-truncated instant (the `strftime "%Y-%m-%dT%H:%M"` key) has not been
seen; first occurrence wins, in list order. -/
def dedupByMinute : List Departure → List Nat → List Departure
  | [], _ => []
  | d :: ds, seen =>
    if seen.contains (toEpochMin d.dep_utc) then dedupByMinute ds seen
    else d :: dedupByMinute ds (toEpochMin d.dep_utc :: seen)

/-- `deduped.sort(key=lambda x: x["_dep_utc"])` comparison relation. -/
def depLe (a b : Departure) : Prop := toEpochSec a.dep_utc ≤ toEpochSec b.dep_utc

instance : DecidableRel depLe :=
  fun a b => Nat.decLe (toEpochSec a.dep_utc) (toEpochSec b.dep_utc)

instance : IsTotal Departure depLe :=
  ⟨fun a b => Nat.le_total (toEpochSec a.dep_utc) (toEpochSec b.dep_utc)⟩

instance : IsTrans Departure depLe := ⟨fun _ _ _ => Nat.le_trans⟩

/-- Filter to the future, deduplicate by minute, sort by instant, keep the
first 5 (`self.departures = deduped[:5]`).  Python's sort is stable; after
deduplication all keys are distinct, so any correct sort gives the same
list, and `List.insertionSort` is also stable. -/
def processDepartures (now : Nat) (ds : List Departure) : List Departure :=
  (List.insertionSort depLe (dedupByMinute (futureOnly now ds) [])).take 5

/-! ## Disruptions (`Connector.async_update_disruptions`) -/

structure NormRoute where
  route_id : J
  route_type : J

/-- The `\x7b"iso": ..., "human": ...\x7d` result of `_safe_local`. -/
structure JRender where
  iso : J
  human : J

/-- `_safe_local(utc, hass)`: `None` for falsy input; for a string, parse
and render ISO + human local strings; on any exception (parse failure,
`astimezone` overflow, `TypeError` on a truthy non-string) echo the raw
input for both fields. -/
def safe_local (off : Int) (utc : J) : Option JRender :=
  if !jTruthy utc then none
  else
    match utc with
    | .s sv =>
      match strptimeWire sv with
      | some dt =>
        match astimezoneOpt off dt with
        | some adt => some { iso := .s (isoformat adt off), human := .s (strftimeHuman adt) }
        | none => some { iso := .s sv, human := .s sv }
      | none => some { iso := .s sv, human := .s sv }
    | other => some { iso := other, human := other }

/-- The trimmed disruption record appended to `normalised`. -/
structure NormDisruption where
  disruption_id : J
  title : J
  description : J
  disruption_status : J
  from_date : J
  to_date : J
  last_updated : J
  url : J
  routes : List NormRoute
  severity : J
  category : J
  stops : List J
  from_date_local : Option JRender
  to_date_local : Option JRender

/-- Routes extraction: `d.get("routes", [])` guarded by `isinstance(...,
list)` (anything else gives `[]`), keeping `route_id`/`route_type` of the
dict entries. -/
def routesOf (d : List (String × J)) : List NormRoute :=
  match getJ d "routes" with
  | .arr xs =>
    xs.filterMap (fun r =>
      match r with
      | .obj kvs => some { route_id := getJ kvs "route_id", route_type := getJ kvs "route_type" }
      | _ => none)
  | _ => []

/-- `[s.get("stop_id") for s in d.get("stops", []) if isinstance(s, dict)]`:
a missing key defaults to `[]`; iterating a string or a dict yields no dict
elements; iterating `None`, a bool or an int raises `TypeError` (`none`),
which the surrounding `except` turns into dropping the record. -/
def stopsOf (d : List (String × J)) : Option (List J) :=
  match d.lookup "stops" with
  | none => some []
  | some (.arr xs) =>
    some (xs.filterMap (fun x =>
      match x with
      | .obj kvs => some (getJ kvs "stop_id")
      | _ => none))
  | some (.s _) => some []
  | some (.obj _) => some []
  | some _ => none

/-- One iteration of the `normalised` loop, under its `try`/`except`:
`none` means the record was skipped (a non-dict raises `AttributeError` on
`.get`; an unfriendly `stops` value raises `TypeError`). -/
def normaliseOpt (off : Int) (dj : J) : Option NormDisruption :=
  match dj with
  | .obj d =>
    match stopsOf d with
    | none => none
    | some st =>
      some {
        disruption_id := getJ d "disruption_id"
        title := getJ d "title"
        description := getJ d "description"
        disruption_status := getJ d "disruption_status"
        from_date := jOr (getJ d "from_date") (getJ d "from_time")
        to_date := jOr (getJ d "to_date") (getJ d "to_time")
        last_updated := getJ d "last_updated"
        url := jOr (getJ d "url") (getJ d "url_web")
        routes := routesOf d
        severity := jOr (getJ d "severity") (getJ d "severity_level")
        category := jOr (getJ d "category") (getJ d "disruption_type")
        stops := st
        from_date_local := safe_local off (jOr (getJ d "from_date") (getJ d "from_time"))
        to_date_local := safe_local off (jOr (getJ d "to_date") (getJ d "to_time")) }
  | _ => none

/-- Normalise the `disruptions` field of the response into a flat list:
a list is taken directly; a dict contributes its list-valued entries
concatenated in iteration order; anything else (or a missing field) gives
`[]`. -/
def extract_disruptions_raw (resp : List (String × J)) : List J :=
  match resp.lookup "disruptions" with
  | some (.arr xs) => xs
  | some (.obj kvs) =>
    kvs.foldl (fun acc kv =>
      match kv.2 with
      | .arr ys => acc ++ ys
      | _ => acc) []
  | _ => []

/-- `r.get("route_type") is None or str(r.get("route_type")) ==
route_type_str`. -/
def routeTypeMatches (routeType : J) (rt : J) : Bool :=
  match rt with
  | .null => true
  | v => pyStr v == pyStr routeType

/-- The route filter predicate of `async_update_disruptions`. -/
def matchesRoute (route routeType : J) (n : NormDisruption) : Bool :=
  n.routes.any (fun r => pyStr r.route_id == pyStr route && routeTypeMatches routeType r.route_type)

/-- The full 200-response processing of `async_update_disruptions`:
extract, normalise (skipping bad records), filter to the configured route. -/
def processDisruptions (off : Int) (route routeType : J) (resp : List (String × J)) :
    List NormDisruption :=
  ((extract_disruptions_raw resp).filterMap (normaliseOpt off)).filter (matchesRoute route routeType)

/-! ## Connector state, throttling, coordinator -/

/-- `MIN_TIME_BETWEEN_UPDATES = timedelta(minutes=2)`, in seconds. -/
def MIN_TIME_BETWEEN_UPDATES : Nat := 120

inductive PyErr where
  | attributeError
  | overflowError
deriving DecidableEq, Repr

/-- The mutable fields of `Connector` touched by the refresh methods.
`departures` is an `Option` because `Connector.__init__` initialises
`disruptions_current` and `disruptions_planned` but never assigns
`self.departures`: `none` is the missing attribute. -/
structure ConnState where
  departures : Option (List Departure)
  disruptions_current : List NormDisruption
  disruptions_planned : List NormDisruption

/-- The state right after `Connector.__init__`. -/
def initConnState : ConnState := { departures := none, disruptions_current := [], disruptions_planned := [] }

/-- Bookkeeping of the `@Throttle` decorator wrapped around `async_update`:
the wall-clock second of the last non-throttled call. -/
structure ThrottleState where
  last : Option Nat

/-- The body of `async_update` on one fetch.  `resp = none` models a
transport failure or a non-200 status (the whole `if` block is skipped);
`resp = some raws` models a 200 response whose `"departures"` field holds
`raws`.  After the conditional the code iterates `self.departures` for
debug logging unconditionally, which raises `AttributeError` when no
successful refresh has ever assigned it. -/
def async_update_body (off : Int) (now : Nat) (resp : Option (List RawDeparture))
    (st : ConnState) : Except PyErr ConnState :=
  match resp with
  | some raws =>
    match build_departures_raw off raws with
    | .error _ => .error .overflowError
    | .ok ds => .ok { st with departures := some (processDepartures now ds) }
  | none =>
    match st.departures with
    | some _ => .ok st
    | none => .error .attributeError

/-- `async_update` as called from outside: the `@Throttle(
MIN_TIME_BETWEEN_UPDATES)` wrapper runs the body only when at least the
minimum interval has passed since the last executed call (`t` is the call
instant in seconds); otherwise it returns immediately.  The `Bool` reports
whether an HTTP request was issued. -/
def async_update (off : Int) (t now : Nat) (resp : Option (List RawDeparture))
    (st : ConnState) (th : ThrottleState) :
    Except PyErr (ConnState × ThrottleState) × Bool :=
  match th.last with
  | some t0 =>
    if t < t0 + MIN_TIME_BETWEEN_UPDATES then (.ok (st, th), false)
    else ((async_update_body off now resp st).map (fun st2 => (st2, ⟨some t⟩)), true)
  | none => ((async_update_body off now resp st).map (fun st2 => (st2, ⟨some t⟩)), true)

/-- `async_update_disruptions(disruption_status)`: it has no `@Throttle`
decorator, so every call issues the HTTP request (the returned `Bool` is the
issued-a-request flag, always `true`).  A failed response leaves the stored
lists unchanged; the method returns the stored list for the given status. -/
def async_update_disruptions (off : Int) (route routeType : J) (status : Nat)
    (resp : Option (List (String × J))) (st : ConnState) :
    (ConnState × Bool) × List NormDisruption :=
  let st2 :=
    match resp with
    | some kvs =>
      let filtered := processDisruptions off route routeType kvs
      if status = 0 then { st with disruptions_current := filtered }
      else { st with disruptions_planned := filtered }
    | none => st
  ((st2, true), if status = 0 then st2.disruptions_current else st2.disruptions_planned)

/-- The methods defined on `class Connector` in
`PublicTransportVictoria/public_transport_victoria.py`, in source order. -/
def connectorMethodNames : List String :=
  ["__init__", "_init", "async_route_types", "async_routes", "async_directions",
   "async_stops", "async_update", "async_update_disruptions"]

/-- `PublicTransportVictoriaGlobalCoordinator._async_update_data` executes
`await self.connector.async_update_all()`: Python attribute lookup on the
`Connector` instance, raising `AttributeError` when the class defines no
such method. -/
def coordinator_async_update_data : Except PyErr Unit :=
  if connectorMethodNames.contains "async_update_all" then .ok () else .error .attributeError

/-! ## Specification-side definitions and concrete inputs -/

/-- The URL signing algorithm as the specification words it (with the query
parameter corrected to the lowercase `devid` the code actually emits):
join `devid=<deviceId>` onto the query string with `&` when it already
contains `?` and with `?` otherwise, HMAC-SHA1 the resulting raw query
string with the UTF-8 API key, hex-encode, append `&signature=<hex>`, and
prefix the fixed base URL.  To be compared with `build_URL`. -/
def sign_spec (deviceId apiKey path : String) : String :=
  let rawQuery :=
    path ++ (if path.data.contains '?' then "&" else "?") ++ "devid=" ++ deviceId
  let signature := hexdigest (hmacSha1 (utf8Bytes apiKey) (utf8Bytes rawQuery))
  BASE_URL ++ rawQuery ++ "&signature=" ++ signature

/-- A disruption referencing route 5 / route type 0, for concrete runs. -/
def sampleDisruption : J :=
  .obj [("disruption_id", .i 1), ("title", .s "Works"),
        ("routes", .arr [.obj [("route_id", .i 5), ("route_type", .i 0)]])]

/-- A disruptions response carrying `sampleDisruption`. -/
def sampleDisruptionsResp : List (String × J) := [("disruptions", .arr [sampleDisruption])]

/-- A departures batch exercising all drop/dedup/sort cases: two entries in
the same minute (estimated vs scheduled fallback), one past entry, one
unparsable entry, one all-null entry, one out-of-order future entry. -/
def sampleRawDepartures : List RawDeparture :=
  [{ estimated_departure_utc := .s "2024-01-01T00:10:30Z", scheduled_departure_utc := .null },
   { estimated_departure_utc := .null, scheduled_departure_utc := .s "2024-01-01T00:10:45Z" },
   { estimated_departure_utc := .s "2024-01-01T00:05:00Z", scheduled_departure_utc := .null },
   { estimated_departure_utc := .s "garbage", scheduled_departure_utc := .null },
   { estimated_departure_utc := .null, scheduled_departure_utc := .null },
   { estimated_departure_utc := .s "2024-01-01T00:08:00Z", scheduled_departure_utc := .null }]

/-- The parsed form of `sampleRawDepartures` (offset +600 minutes). -/
def sampleParsedDepartures : List Departure :=
  [{ raw := { estimated_departure_utc := .s "2024-01-01T00:10:30Z", scheduled_departure_utc := .null },
     dep_utc := ⟨2024, 1, 1, 0, 10, 30⟩, departure := "10:10 AM" },
   { raw := { estimated_departure_utc := .null, scheduled_departure_utc := .s "2024-01-01T00:10:45Z" },
     dep_utc := ⟨2024, 1, 1, 0, 10, 45⟩, departure := "10:10 AM" },
   { raw := { estimated_departure_utc := .s "2024-01-01T00:05:00Z", scheduled_departure_utc := .null },
     dep_utc := ⟨2024, 1, 1, 0, 5, 0⟩, departure := "10:05 AM" },
   { raw := { estimated_departure_utc := .s "2024-01-01T00:08:00Z", scheduled_departure_utc := .null },
     dep_utc := ⟨2024, 1, 1, 0, 8, 0⟩, departure := "10:08 AM" }]

/-! ## Helper lemmas -/

theorem routeTypeMatches_iff (routeType rt : J) :
    routeTypeMatches routeType rt = true ↔ (rt = J.null ∨ pyStr rt = pyStr routeType) := by
  cases rt <;> simp [routeTypeMatches]

theorem foldl_extend_length (kvs : List (String × J)) : ∀ acc : List J,
    (kvs.foldl (fun acc kv => match kv.2 with | .arr ys => acc ++ ys | _ => acc) acc).length
      = acc.length + (kvs.map (fun kv => match kv.2 with | .arr ys => ys.length | _ => 0)).sum := by
  induction kvs with
  | nil => intro acc; simp
  | cons kv rest ih =>
    intro acc
    rw [List.foldl_cons, List.map_cons, List.sum_cons]
    cases h2 : kv.2 <;> simp only [ih, List.length_append] <;> omega

/-! ## C8: the URL signer -/

set_option maxRecDepth 100000 in
/-- C8 counterexample: the claim joins `devId=<deviceId>` onto the query
string, but at the concrete input (`id="1000001"`, `key="abcdef"`,
`path="/v3/route_types"`) the produced URL carries the lowercase
`devid=1000001` and contains no substring `devId=1000001`. -/
theorem build_URL_devId_counterexample :
    build_URL "1000001" "abcdef" "/v3/route_types" =
      "https://timetableapi.ptv.vic.gov.au/v3/route_types?devid=1000001&signature=7123a84ca5d485185e7e4613cb558448529eabbd" ∧
    ¬ ("devId=1000001".data <:+: (build_URL "1000001" "abcdef" "/v3/route_types").data) ∧
    ("devid=1000001".data <:+: (build_URL "1000001" "abcdef" "/v3/route_types").data) := by
  refine ⟨by decide, by decide, by decide⟩

/-- C8 (amended: the joined query parameter is the lowercase
`devid=<deviceId>`): for every device id, API key and request path,
`build_URL` equals the specification-side signer `sign_spec` — it joins
`devid=<deviceId>` with `&` when the string already contains `?` and with
`?` otherwise, HMAC-SHA1s the resulting raw query string with the UTF-8 API
key bytes, hex-encodes the digest, appends `&signature=<hex>` and prefixes
the fixed base URL; being a pure function of its inputs it is
deterministic. -/
theorem build_URL_correct (id api_key request : String) :
    build_URL id api_key request = sign_spec id api_key request := by
  simp [build_URL, sign_spec, String.append_assoc]

/-! ## C5: the combined refresh is missing -/

/-- C5: the claim says the `Connector` exposes a combined refresh
(`async_update_all` / `refreshAll`) invoked by the global coordinator; the
class defines no such method, so the coordinator's
`await self.connector.async_update_all()` raises `AttributeError` on every
tick. -/
theorem coordinator_update_data_attribute_error :
    coordinator_async_update_data = .error .attributeError ∧
    connectorMethodNames.contains "async_update_all" = false := by
  refine ⟨rfl, rfl⟩

/-! ## C6: both disruptions response shapes are accepted -/

/-- C6: a list-valued `disruptions` field is taken directly (so the raw
count is its length), and for a mapping the list-valued entries are
concatenated (so the raw count is the sum of their lengths). -/
theorem extract_disruptions_shapes (resp : List (String × J)) :
    (∀ xs, resp.lookup "disruptions" = some (.arr xs) →
       extract_disruptions_raw resp = xs ∧
       (extract_disruptions_raw resp).length = xs.length) ∧
    (∀ kvs, resp.lookup "disruptions" = some (.obj kvs) →
       (extract_disruptions_raw resp).length =
         (kvs.map (fun kv => match kv.2 with | .arr ys => ys.length | _ => 0)).sum) := by
  constructor
  · intro xs h
    simp [extract_disruptions_raw, h]
  · intro kvs h
    simp only [extract_disruptions_raw, h]
    simpa using foldl_extend_length kvs []

/-- C6 witness: a direct list of one disruption and a mapping with two
list-valued categories (2 + 1 entries) and one non-list entry. -/
theorem extract_disruptions_shapes_witness :
    extract_disruptions_raw [("disruptions", .arr [J.null])] = [J.null] ∧
    (extract_disruptions_raw
        [("disruptions", .obj [("general", .arr [J.i 1, J.i 2]),
                               ("metro_train", .arr [J.i 3]),
                               ("status", .s "ok")])]).length = 3 := by
  constructor
  · exact ((extract_disruptions_shapes [("disruptions", .arr [J.null])]).1 [J.null] rfl).1
  · have h := (extract_disruptions_shapes
        [("disruptions", .obj [("general", .arr [J.i 1, J.i 2]),
                               ("metro_train", .arr [J.i 3]),
                               ("status", .s "ok")])]).2
        [("general", .arr [J.i 1, J.i 2]), ("metro_train", .arr [J.i 3]), ("status", .s "ok")] rfl
    simpa using h

/-! ## C2: route filtering of disruptions -/

/-- C2: for every disruptions response, the list stored for the given
status contains exactly those normalised records having at least one
referenced route whose `route_id`, compared as a string, equals the
configured route id, and whose `route_type` is absent (`None`) or, compared
as a string, equals the configured route type. -/
theorem stored_disruptions_filter (off : Int) (route routeType : J) (status : Nat)
    (resp : List (String × J)) (st : ConnState) (n : NormDisruption) :
    (n ∈ (if status = 0
            then ((async_update_disruptions off route routeType status (some resp) st).1.1).disruptions_current
            else ((async_update_disruptions off route routeType status (some resp) st).1.1).disruptions_planned))
      ↔ (n ∈ (extract_disruptions_raw resp).filterMap (normaliseOpt off) ∧
         ∃ r ∈ n.routes, pyStr r.route_id = pyStr route ∧
           (r.route_type = J.null ∨ pyStr r.route_type = pyStr routeType)) := by
  by_cases h0 : status = 0 <;>
    simp [async_update_disruptions, h0, processDisruptions, List.mem_filter,
      matchesRoute, List.any_eq_true, routeTypeMatches_iff, and_assoc]

/-! ## C10: order preservation of the disruption pipeline -/

/-- C10: the stored disruption list is the flattened raw list filtered and
mapped in place — a `filterMap` of the raw response — and hence an
order-preserving subsequence of the normalised list: no reordering happens,
and index 0 of the stored list is the first matching raw disruption. -/
theorem stored_disruptions_order (off : Int) (route routeType : J)
    (resp : List (String × J)) :
    processDisruptions off route routeType resp
        = (extract_disruptions_raw resp).filterMap
            (fun d => (normaliseOpt off d).bind
              (fun n => if matchesRoute route routeType n then some n else none)) ∧
    List.Sublist (processDisruptions off route routeType resp)
        ((extract_disruptions_raw resp).filterMap (normaliseOpt off)) := by
  constructor
  · rw [processDisruptions, List.filter_filterMap]
    congr 1
    funext d
    cases normaliseOpt off d <;> simp [Option.filter]
  · exact List.filter_sublist _

/-! ## C9: the time normalizer -/

/-- C9 counterexample: `_safe_local` does not echo every unparsable string —
the empty string (falsy) yields `None` instead of the degraded
`\x7b"iso": "", "human": ""\x7d`; and a parseable wire timestamp is not always
zone-adjusted — at `"9999-12-31T23:59:59Z"` with a +11:00 zone the
`astimezone` overflow is caught and the raw string is echoed instead. -/
theorem safe_local_claim_counterexample :
    safe_local 660 (.s "") = none ∧
    (none : Option JRender) ≠ some { iso := .s "", human := .s "" } ∧
    safe_local 660 (.s "9999-12-31T23:59:59Z")
      = some { iso := .s "9999-12-31T23:59:59Z", human := .s "9999-12-31T23:59:59Z" } := by
  refine ⟨rfl, ?_, rfl⟩
  intro h
  cases h

/-- C9 (amended: the empty string yields `None` rather than an echo, and a
parse-success whose zone-shifted instant overflows the supported datetime
range is echoed too): `_safe_local` is total (never raises); a non-empty
wire-format timestamp yields the zone-adjusted ISO string and 12-hour AM/PM
display string when the shifted instant is representable and the raw echo
otherwise; every other non-empty string yields the degraded echo of the raw
input for both fields. -/
theorem safe_local_contract (off : Int) (s : String) :
    (s = "" → safe_local off (.s s) = none) ∧
    (∀ dt, strptimeWire s = some dt →
       safe_local off (.s s) = some (
         match astimezoneOpt off dt with
         | some adt => { iso := .s (isoformat adt off), human := .s (strftimeHuman adt) }
         | none => { iso := .s s, human := .s s })) ∧
    (s ≠ "" → strptimeWire s = none →
       safe_local off (.s s) = some { iso := .s s, human := .s s }) := by
  refine ⟨?_, ?_, ?_⟩
  · intro hs
    subst hs
    rfl
  · intro dt h
    have hs : s ≠ "" := by
      intro he
      subst he
      rw [show strptimeWire "" = none from rfl] at h
      cases h
    simp only [safe_local, jTruthy, hs, h]
    cases astimezoneOpt off dt <;> simp [hs]
  · intro hs h
    simp [safe_local, jTruthy, hs, h]

/-- C9 witness: the three behaviours at concrete inputs (zone +11:00). -/
theorem safe_local_contract_witness :
    safe_local 660 (.s "") = none ∧
    safe_local 660 (.s "2024-01-01T00:00:00Z")
      = some { iso := .s "2024-01-01T11:00:00+11:00", human := .s "2024-01-01 11:00 AM" } ∧
    safe_local 660 (.s "not-a-date") = some { iso := .s "not-a-date", human := .s "not-a-date" } := by
  refine ⟨(safe_local_contract 660 "").1 rfl, ?_, ?_⟩
  · have h := (safe_local_contract 660 "2024-01-01T00:00:00Z").2.1 ⟨2024, 1, 1, 0, 0, 0⟩ rfl
    exact h.trans (by rfl)
  · exact (safe_local_contract 660 "not-a-date").2.2 (by decide) rfl

/-! ## C3: throttling -/

/-- C3 counterexample: `async_update_disruptions` carries no `@Throttle`
decorator, so a second disruptions refresh immediately after a first one
(well within the 2-minute minimum interval) still issues an HTTP request
(`true` flag) and replaces the snapshot: after a first call stored one
matching disruption, the second call returns an empty list, not the
previous value. -/
theorem disruptions_refresh_not_throttled :
    ((async_update_disruptions 600 (.i 5) (.i 0) 0 (some [])
        ((async_update_disruptions 600 (.i 5) (.i 0) 0 (some sampleDisruptionsResp)
            initConnState).1.1)).1.2 = true) ∧
    ((async_update_disruptions 600 (.i 5) (.i 0) 0 (some sampleDisruptionsResp)
        initConnState).2).length = 1 ∧
    ((async_update_disruptions 600 (.i 5) (.i 0) 0 (some [])
        ((async_update_disruptions 600 (.i 5) (.i 0) 0 (some sampleDisruptionsResp)
            initConnState).1.1)).2).length = 0 := by
  refine ⟨rfl, rfl, rfl⟩

/-- C3 (amended: only the departures refresh `async_update` is throttled —
at `MIN_TIME_BETWEEN_UPDATES` = 2 minutes — so a second departures call
within the interval issues no HTTP request and returns with the state
unchanged; the disruptions refresh has no throttle and issues a request on
every call). -/
theorem refresh_throttling_contract (off : Int) (t now t0 : Nat)
    (resp : Option (List RawDeparture)) (st st2 : ConnState)
    (route routeType : J) (status : Nat) (resp2 : Option (List (String × J)))
    (h : t < t0 + MIN_TIME_BETWEEN_UPDATES) :
    async_update off t now resp st ⟨some t0⟩ = (.ok (st, ⟨some t0⟩), false) ∧
    (async_update_disruptions off route routeType status resp2 st2).1.2 = true := by
  constructor
  · simp [async_update, h]
  · rfl

/-- C3 witness: a second departures refresh 60 s after the first is a
throttled no-op; a disruptions refresh always issues a request. -/
theorem refresh_throttling_contract_witness :
    async_update 600 60 60 none initConnState ⟨some 0⟩ = (.ok (initConnState, ⟨some 0⟩), false) ∧
    (async_update_disruptions 600 (.i 5) (.i 0) 1 none initConnState).1.2 = true :=
  refresh_throttling_contract 600 60 60 0 none initConnState initConnState
    (.i 5) (.i 0) 1 none (by decide)

/-! ## C4: behaviour on failed fetches -/

/-- C4: the claim says a failed fetch (absent response or non-200 status)
always leaves the snapshot unchanged and lets no exception propagate, in
every `Connector` state.  On the fresh state after `__init__` (where
`self.departures` was never assigned) a failed departures refresh instead
raises `AttributeError` at the unconditional `for departure in
self.departures` loop; once a successful refresh has assigned the
attribute, failed refreshes do retain the snapshot, and the disruptions
refresh retains its lists in every state. -/
theorem refresh_failure_behaviour :
    (async_update 600 0 0 none initConnState ⟨none⟩).1 = .error .attributeError ∧
    (∀ deps dc dp, (async_update 600 200 0 none ⟨some deps, dc, dp⟩ ⟨none⟩).1
        = .ok (⟨some deps, dc, dp⟩, ⟨some 200⟩)) ∧
    (∀ st status, ((async_update_disruptions 600 (.i 5) (.i 0) status none st).1).1 = st) := by
  refine ⟨rfl, fun deps dc dp => rfl, fun st status => rfl⟩

/-! ## Helper lemmas for the departure pipeline -/

theorem validateWire_second_lt {t : Nat × Nat × Nat × Nat × Nat × Nat × List Char}
    {dt : DateTime} (h : validateWire t = some dt) : dt.second < 60 := by
  obtain ⟨y, mo, d, hh, mi, sec, rest⟩ := t
  simp only [validateWire] at h
  split_ifs at h with h1 h2 h3 h4 h5 h6 h7 h8 h9
  all_goals cases h
  exact Nat.lt_of_le_of_lt (Nat.le_of_not_lt h8) (by omega)

theorem strptimeWire_second_lt {s : String} {dt : DateTime}
    (h : strptimeWire s = some dt) : dt.second < 60 := by
  unfold strptimeWire at h
  rw [Option.bind_eq_some] at h
  obtain ⟨t, -, ht⟩ := h
  exact validateWire_second_lt ht

theorem parse_departure_some_second {off : Int} {r : RawDeparture} {d : Departure}
    (h : parse_departure off r = .ok (some d)) : d.dep_utc.second < 60 := by
  unfold parse_departure at h
  split at h
  · split at h
    · simp at h
    · split at h
      · simp at h
      · rename_i dt hdt
        split at h
        · simp at h
        · simp only [Except.ok.injEq, Option.some.injEq] at h
          subst h
          exact strptimeWire_second_lt hdt
  · simp at h

theorem build_departures_raw_ok_second {off : Int} :
    ∀ {raws : List RawDeparture} {ds : List Departure},
      build_departures_raw off raws = .ok ds → ∀ d ∈ ds, d.dep_utc.second < 60 := by
  intro raws
  induction raws with
  | nil =>
    intro ds h d hd
    rw [build_departures_raw] at h
    cases h
    simp at hd
  | cons r rs ih =>
    intro ds h d hd
    rw [build_departures_raw] at h
    split at h
    · cases h
    · exact ih h d hd
    · rename_i d0 hd0
      split at h
      · cases h
      · rename_i ds0 hds0
        cases h
        rcases List.mem_cons.mp hd with rfl | hmem
        · exact parse_departure_some_second hd0
        · exact ih hds0 d hmem

theorem dedupByMinute_mem : ∀ {l : List Departure} {seen : List Nat} {x : Departure},
    x ∈ dedupByMinute l seen → x ∈ l := by
  intro l
  induction l with
  | nil => intro seen x h; simp [dedupByMinute] at h
  | cons d ds ih =>
    intro seen x h
    rw [dedupByMinute] at h
    split at h
    · exact List.mem_cons_of_mem _ (ih h)
    · rcases List.mem_cons.mp h with rfl | h2
      · exact List.mem_cons_self _ _
      · exact List.mem_cons_of_mem _ (ih h2)

theorem dedupByMinute_find : ∀ {l : List Departure} {seen : List Nat} {x : Departure},
    x ∈ dedupByMinute l seen →
    seen.contains (toEpochMin x.dep_utc) = false ∧
    l.find? (fun y => toEpochMin y.dep_utc == toEpochMin x.dep_utc) = some x := by
  intro l
  induction l with
  | nil => intro seen x h; simp [dedupByMinute] at h
  | cons d ds ih =>
    intro seen x h
    rw [dedupByMinute] at h
    split at h
    · rename_i hc
      obtain ⟨hx, hfind⟩ := ih h
      have hkne : toEpochMin d.dep_utc ≠ toEpochMin x.dep_utc := by
        intro he
        rw [he, hx] at hc
        cases hc
      refine ⟨hx, ?_⟩
      rw [List.find?_cons_of_neg _ (by simpa using hkne)]
      exact hfind
    · rename_i hc
      rcases List.mem_cons.mp h with rfl | h2
      · refine ⟨by simpa using hc, ?_⟩
        exact List.find?_cons_of_pos _ (by simp)
      · obtain ⟨hx, hfind⟩ := ih h2
        have hx2 : (toEpochMin x.dep_utc == toEpochMin d.dep_utc) = false ∧
            seen.contains (toEpochMin x.dep_utc) = false := by
          simpa [List.contains_cons] using hx
        have hkne : toEpochMin d.dep_utc ≠ toEpochMin x.dep_utc := by
          intro he
          rw [← he] at hx2
          simp at hx2
        refine ⟨hx2.2, ?_⟩
        rw [List.find?_cons_of_neg _ (by simpa using hkne)]
        exact hfind

theorem dedupByMinute_pairwise : ∀ (l : List Departure) (seen : List Nat),
    (dedupByMinute l seen).Pairwise
      (fun a b => toEpochMin a.dep_utc ≠ toEpochMin b.dep_utc) := by
  intro l
  induction l with
  | nil => intro seen; simp [dedupByMinute]
  | cons d ds ih =>
    intro seen
    rw [dedupByMinute]
    split
    · exact ih _
    · refine List.Pairwise.cons ?_ (ih _)
      intro y hy he
      have hx := (dedupByMinute_find hy).1
      simp [List.contains_cons] at hx
      exact hx.1 he.symm

/-! ## C1: the stored departure list -/

/-- C1: after a successful departures refresh the stored list is exactly
the pipeline result — future-filter, then first-occurrence-per-minute
deduplication in original API order, then sort by instant, then the first
5 — and therefore has length at most 5, is strictly ascending by parsed UTC
instant, has pairwise distinct minute-truncated instants, contains only
instants strictly after `now`, and each stored entry is the first entry of
the future-filtered batch bearing its minute key. -/
theorem async_update_departures_invariants (off : Int) (now : Nat)
    (raws : List RawDeparture) (ds : List Departure) (st st2 : ConnState)
    (hb : build_departures_raw off raws = .ok ds)
    (h : async_update_body off now (some raws) st = .ok st2) :
    st2.departures = some (processDepartures now ds) ∧
    (processDepartures now ds).length ≤ 5 ∧
    (processDepartures now ds).Pairwise
      (fun a b => toEpochSec a.dep_utc < toEpochSec b.dep_utc) ∧
    (processDepartures now ds).Pairwise
      (fun a b => toEpochMin a.dep_utc ≠ toEpochMin b.dep_utc) ∧
    (∀ d ∈ processDepartures now ds, now < toEpochSec d.dep_utc) ∧
    (∀ d ∈ processDepartures now ds,
       (futureOnly now ds).find?
         (fun y => toEpochMin y.dep_utc == toEpochMin d.dep_utc) = some d) := by
  have hst : st2.departures = some (processDepartures now ds) := by
    simp only [async_update_body, hb] at h
    cases h
    rfl
  have hmemS : ∀ {x : Departure},
      x ∈ List.insertionSort depLe (dedupByMinute (futureOnly now ds) []) →
      x ∈ dedupByMinute (futureOnly now ds) [] := by
    intro x hx
    exact ((List.perm_insertionSort depLe _).mem_iff).mp hx
  have hmemD : ∀ {x : Departure}, x ∈ processDepartures now ds →
      x ∈ dedupByMinute (futureOnly now ds) [] := by
    intro x hx
    exact hmemS (List.mem_of_mem_take hx)
  have hsec : ∀ x ∈ List.insertionSort depLe (dedupByMinute (futureOnly now ds) []),
      x.dep_utc.second < 60 := by
    intro x hx
    have h1 : x ∈ futureOnly now ds := dedupByMinute_mem (hmemS hx)
    exact build_departures_raw_ok_second hb x (List.mem_filter.mp h1).1
  have hneS : (List.insertionSort depLe (dedupByMinute (futureOnly now ds) [])).Pairwise
      (fun a b => toEpochMin a.dep_utc ≠ toEpochMin b.dep_utc) :=
    ((List.perm_insertionSort depLe _).pairwise_iff (fun hxy => Ne.symm hxy)).mpr
      (dedupByMinute_pairwise _ _)
  refine ⟨hst, ?_, ?_, ?_, ?_, ?_⟩
  · show ((List.insertionSort depLe _).take 5).length ≤ 5
    rw [List.length_take]
    exact Nat.min_le_left _ _
  · have hsorted : (List.insertionSort depLe (dedupByMinute (futureOnly now ds) [])).Sorted depLe :=
      List.sorted_insertionSort depLe _
    have hltS : (List.insertionSort depLe (dedupByMinute (futureOnly now ds) [])).Pairwise
        (fun a b => toEpochSec a.dep_utc < toEpochSec b.dep_utc) := by
      rw [List.pairwise_iff_forall_sublist]
      intro a b hsub
      have h1 : depLe a b := List.pairwise_iff_forall_sublist.mp hsorted hsub
      have h2 : toEpochMin a.dep_utc ≠ toEpochMin b.dep_utc :=
        List.pairwise_iff_forall_sublist.mp hneS hsub
      have hsa := hsec a (hsub.subset (by simp))
      have hsb := hsec b (hsub.subset (by simp))
      have e1 : toEpochSec a.dep_utc = toEpochMin a.dep_utc * 60 + a.dep_utc.second := rfl
      have e2 : toEpochSec b.dep_utc = toEpochMin b.dep_utc * 60 + b.dep_utc.second := rfl
      have h1b : toEpochSec a.dep_utc ≤ toEpochSec b.dep_utc := h1
      omega
    exact List.Pairwise.sublist (List.take_sublist 5 _) hltS
  · exact List.Pairwise.sublist (List.take_sublist 5 _) hneS
  · intro d hd
    have h1 : d ∈ futureOnly now ds := dedupByMinute_mem (hmemD hd)
    exact of_decide_eq_true (List.mem_filter.mp h1).2
  · intro d hd
    exact (dedupByMinute_find (hmemD hd)).2

/-- C1 witness: the sample batch (duplicate minute, past entry, unparsable
entry, all-null entry, out-of-order entry) processed at `now` =
2024-01-01T00:06:00 UTC. -/
theorem async_update_departures_invariants_witness :
    (processDepartures (toEpochSec ⟨2024, 1, 1, 0, 6, 0⟩) sampleParsedDepartures).length ≤ 5 ∧
    (∀ d ∈ processDepartures (toEpochSec ⟨2024, 1, 1, 0, 6, 0⟩) sampleParsedDepartures,
       toEpochSec ⟨2024, 1, 1, 0, 6, 0⟩ < toEpochSec d.dep_utc) := by
  have h := async_update_departures_invariants 600 (toEpochSec ⟨2024, 1, 1, 0, 6, 0⟩)
    sampleRawDepartures sampleParsedDepartures initConnState
    { departures := some (processDepartures (toEpochSec ⟨2024, 1, 1, 0, 6, 0⟩) sampleParsedDepartures),
      disruptions_current := [], disruptions_planned := [] }
    (by rfl) (by rfl)
  exact ⟨h.2.1, h.2.2.2.2.1⟩

/-! ## C7: timestamp selection and per-record dropping -/

theorem build_departures_skip {off : Int} {r : RawDeparture}
    (hr : parse_departure off r = .ok none) :
    ∀ (pre post : List RawDeparture),
      build_departures_raw off (pre ++ r :: post) = build_departures_raw off (pre ++ post) := by
  intro pre
  induction pre with
  | nil =>
    intro post
    simp only [List.nil_append]
    rw [build_departures_raw, hr]
  | cons p ps ih =>
    intro post
    simp only [List.cons_append]
    rw [build_departures_raw, build_departures_raw, ih post]

/-- C7: the processor selects `estimated_departure_utc` when truthy and
`scheduled_departure_utc` otherwise (Python `or`); a record whose both
fields are absent (`None`), or whose selected timestamp fails to parse, is
dropped (`.ok none`) and the processing of the remaining records of the
batch continues unchanged, without aborting. -/
theorem departure_field_selection (off : Int) (r : RawDeparture)
    (pre post : List RawDeparture) :
    (jTruthy r.estimated_departure_utc = true →
       jOr r.estimated_departure_utc r.scheduled_departure_utc = r.estimated_departure_utc) ∧
    (jTruthy r.estimated_departure_utc = false →
       jOr r.estimated_departure_utc r.scheduled_departure_utc = r.scheduled_departure_utc) ∧
    (r.estimated_departure_utc = J.null → r.scheduled_departure_utc = J.null →
       parse_departure off r = .ok none) ∧
    (∀ str, jOr r.estimated_departure_utc r.scheduled_departure_utc = .s str →
       strptimeWire str = none → parse_departure off r = .ok none) ∧
    (parse_departure off r = .ok none →
       build_departures_raw off (pre ++ r :: post) = build_departures_raw off (pre ++ post)) := by
  refine ⟨?_, ?_, ?_, ?_, fun h => build_departures_skip h pre post⟩
  · intro h
    simp [jOr, h]
  · intro h
    simp [jOr, h]
  · intro h1 h2
    simp [parse_departure, jOr, jTruthy, h1, h2]
  · intro str hsel hp
    simp [parse_departure, hsel, hp]

/-- C7 witness: the all-null record is dropped; the unparsable `"garbage"`
record is dropped and the surrounding batch processes identically without
it. -/
theorem departure_field_selection_witness :
    parse_departure 600 { estimated_departure_utc := .null, scheduled_departure_utc := .null }
      = .ok none ∧
    build_departures_raw 600
        ([{ estimated_departure_utc := .s "2024-01-01T00:08:00Z", scheduled_departure_utc := .null }] ++
          { estimated_departure_utc := .s "garbage", scheduled_departure_utc := .null } ::
          [{ estimated_departure_utc := .null, scheduled_departure_utc := .s "2024-01-01T00:10:45Z" }])
      = build_departures_raw 600
          ([{ estimated_departure_utc := .s "2024-01-01T00:08:00Z", scheduled_departure_utc := .null }] ++
           [{ estimated_departure_utc := .null, scheduled_departure_utc := .s "2024-01-01T00:10:45Z" }]) := by
  constructor
  · exact (departure_field_selection 600
      { estimated_departure_utc := .null, scheduled_departure_utc := .null } [] []).2.2.1 rfl rfl
  · refine (departure_field_selection 600
      { estimated_departure_utc := .s "garbage", scheduled_departure_utc := .null }
      [{ estimated_departure_utc := .s "2024-01-01T00:08:00Z", scheduled_departure_utc := .null }]
      [{ estimated_departure_utc := .null, scheduled_departure_utc := .s "2024-01-01T00:10:45Z" }]).2.2.2.2 ?_
    exact (departure_field_selection 600
      { estimated_departure_utc := .s "garbage", scheduled_departure_utc := .null } [] []).2.2.2.1
      "garbage" rfl rfl

end PTV
